import Mathlib

/-!
Verification of the k8s-mcp-server repository (src/k8s_mcp_server_http.py and
src/k8s_mcp_server_local.py) against its natural-language specification.

The Python source is shallowly embedded: Python floats are modelled as exact
rationals (every numeric value appearing in the checked properties is exactly
representable in binary floating point, so the exact model and CPython agree
on them), fallible code (Python exceptions such as ValueError from float())
is modelled with Option/Except, and Python string operations (substring test
with the in operator, rstrip with a character set, f-string rendering of
ints and floats) are modelled explicitly below.
-/

namespace K8sMCP

/- The Batteries rational primitives are irreducible by default, which
blocks evaluation of concrete instances inside decide; restore the
definitional behaviour for this development. -/
attribute [local semireducible] Rat.mul Rat.inv Rat.add Rat.sub Rat.ofScientific

set_option maxRecDepth 10000

/-! ### Python string primitives -/

/-- Model of the Python expression pat in s (substring containment):
chStart checks that p is an initial segment of the second list. -/
def chStart : List Char → List Char → Bool
  | [], _ => true
  | _ :: _, [] => false
  | p :: ps, c :: cs => p == c && chStart ps cs

/-- chSub p l is true when p occurs as a contiguous sublist of l. -/
def chSub (p : List Char) : List Char → Bool
  | [] => chStart p []
  | c :: cs => chStart p (c :: cs) || chSub p cs

/-- Python substring test: pat in s. -/
def strIn (pat s : String) : Bool := chSub pat.data s.data

/-- Python s.rstrip(chars): removes trailing characters belonging to the set. -/
def rstrip (cs : List Char) (s : String) : String :=
  ⟨(s.data.reverse.dropWhile (fun c => cs.contains c)).reverse⟩

/-- Python string repetition: s * n. -/
def strRepeat (s : String) (n : Nat) : String :=
  String.join (List.replicate n s)

/-! ### Python float model (exact rationals)

Modelled from the source calls to the CPython builtin float(): the model
covers decimal literals (optional surrounding ASCII whitespace, optional
sign, integer digits, optional fraction, optional exponent).  CPython
additionally accepts the words inf/infinity/nan and underscore digit
separators; those forms never occur in Kubernetes quantity strings and are
not modelled.  A string outside the grammar makes float() raise ValueError,
modelled as none. -/

def splitDigits (l : List Char) : List Char × List Char :=
  (l.takeWhile Char.isDigit, l.dropWhile Char.isDigit)

def digitsVal (l : List Char) : Nat :=
  l.foldl (fun a c => a * 10 + (c.toNat - 48)) 0

def expPart (sgn mant : ℚ) (t : List Char) : Option ℚ :=
  let p : ℤ × List Char :=
    match t with
    | '+' :: r => (1, r)
    | '-' :: r => (-1, r)
    | _ => (1, t)
  let (ed, t2) := splitDigits p.2
  if ed.isEmpty || !t2.isEmpty then none
  else some (sgn * mant * (10 : ℚ) ^ (p.1 * (digitsVal ed : ℤ)))

def pyFloatCore (l : List Char) : Option ℚ :=
  let s : ℚ × List Char :=
    match l with
    | '+' :: t => (1, t)
    | '-' :: t => (-1, t)
    | _ => (1, l)
  let (ip, l2) := splitDigits s.2
  let q : List Char × List Char :=
    match l2 with
    | '.' :: t => splitDigits t
    | _ => ([], l2)
  if ip.isEmpty && q.1.isEmpty then none
  else
    let mant : ℚ := (digitsVal ip : ℚ) + (digitsVal q.1 : ℚ) / ((10 : ℚ) ^ q.1.length)
    match q.2 with
    | [] => some (s.1 * mant)
    | 'e' :: t => expPart s.1 mant t
    | 'E' :: t => expPart s.1 mant t
    | _ => none

def isPySpace (c : Char) : Bool :=
  c == ' ' || c == '\t' || c == '\n' || c == '\r' || c == '\x0b' || c == '\x0c'

/-- Model of the CPython builtin float applied to a string. -/
def pyFloat? (s : String) : Option ℚ :=
  pyFloatCore (((s.data.dropWhile isPySpace).reverse.dropWhile isPySpace).reverse)

/-! ### Python float rendering -/

/-- Number of decimal digits needed after the point for an exact decimal
expansion of q (bounded search; every float needs at most 1074). -/
def fracKAux : Nat → ℚ → Nat
  | 0, _ => 0
  | fuel + 1, q => if q.den == 1 then 0 else 1 + fracKAux fuel (q * 10)

def fracK (q : ℚ) : Nat := fracKAux 1200 q

def padZeros (k : Nat) (s : String) : String :=
  String.mk (List.replicate (k - s.length) '0') ++ s

/-- Model of CPython str() on a float value: the shortest round-tripping
decimal, which for every value with an exact short decimal expansion (all
values in the checked properties) is that exact expansion; an integral
float renders with a trailing ".0" (str(999999.0) is "999999.0").
Scientific-notation thresholds (at or above 1e16, below 1e-4) are outside
the range of the checked properties and are not modelled. -/
def pyFloatStr (q : ℚ) : String :=
  let sgn := if q < 0 then "-" else ""
  let a : ℚ := |q|
  let k := fracK a
  if k == 0 then sgn ++ toString a.num ++ ".0"
  else
    let scaled : Nat := (a * (10 : ℚ) ^ k).num.toNat
    sgn ++ toString (scaled / 10 ^ k) ++ "." ++ padZeros k (toString (scaled % 10 ^ k))

/-- Round to the nearest integer, ties to even (CPython rounding for the
format specifications .2f and .0f, applied to the exact value). -/
def roundHalfEven (q : ℚ) : ℤ :=
  let f := q.floor
  let r := q - f
  if r < 1 / 2 then f
  else if 1 / 2 < r then f + 1
  else if f % 2 == 0 then f else f + 1

/-- Python format specification .2f on a float value. -/
def fixed2 (q : ℚ) : String :=
  let sgn := if q < 0 then "-" else ""
  let n := (roundHalfEven (|q| * 100)).toNat
  sgn ++ toString (n / 100) ++ "." ++ padZeros 2 (toString (n % 100))

/-- Python format specification .0f on a float value. -/
def fixed0 (q : ℚ) : String :=
  let sgn := if q < 0 then "-" else ""
  sgn ++ toString (roundHalfEven |q|).toNat

/-- A Python number that is either an int or a float: the source initializes
the accumulators total_cpu and total_mem to the int 0, and adding a float
turns them into floats, which changes how an f-string renders them. -/
inductive PyNum where
  | int (n : ℤ)
  | float (q : ℚ)
deriving DecidableEq

def PyNum.toQ : PyNum → ℚ
  | .int n => n
  | .float q => q

/-- Adding a float to a Python number always yields a float. -/
def PyNum.addFloat (a : PyNum) (q : ℚ) : PyNum := .float (a.toQ + q)

/-- Python str() on an int-or-float value (f-string rendering). -/
def pyNumStr : PyNum → String
  | .int n => toString n
  | .float q => pyFloatStr q

/-! ### Quantity normalizer
format_resource_usage, src/k8s_mcp_server_http.py lines 43-65 and
src/k8s_mcp_server_local.py lines 36-58.  The CPU and memory branches are
named parseCPU and parseMemory after the contract in the specification. -/

/-- CPU branch of format_resource_usage (result in cores). -/
def parseCPU (cpu : String) : Option ℚ :=
  if strIn "n" cpu then (pyFloat? (rstrip ['n'] cpu)).map (fun v => v / 1000000000)
  else if strIn "u" cpu then (pyFloat? (rstrip ['u'] cpu)).map (fun v => v / 1000000)
  else if strIn "m" cpu then (pyFloat? (rstrip ['m'] cpu)).map (fun v => v / 1000)
  else pyFloat? cpu

/-- Memory branch of format_resource_usage (result in GB). -/
def parseMemory (memory : String) : Option ℚ :=
  if strIn "Ki" memory then (pyFloat? (rstrip ['K', 'i'] memory)).map (fun v => v / (1024 * 1024))
  else if strIn "Mi" memory then (pyFloat? (rstrip ['M', 'i'] memory)).map (fun v => v / 1024)
  else if strIn "Gi" memory then pyFloat? (rstrip ['G', 'i'] memory)
  else (pyFloat? memory).map (fun v => v / 1024 ^ 3)

/-- format_resource_usage; none models a ValueError escaping from float(). -/
def format_resource_usage (cpu memory : String) : Option String := do
  let cpu_cores ← parseCPU cpu
  let mem_gb ← parseMemory memory
  pure (fixed2 cpu_cores ++ " cores, " ++ fixed2 mem_gb ++ " GB")

/-! ### Per-container normalization inside get_resource_usage
src/k8s_mcp_server_http.py lines 363-401 and
src/k8s_mcp_server_local.py lines 340-378. -/

/-- Normalize a container CPU quantity to nanocores (lines 372-379). -/
def cpuToNano (cpu : String) : Option ℚ :=
  if strIn "n" cpu then pyFloat? (rstrip ['n'] cpu)
  else if strIn "u" cpu then (pyFloat? (rstrip ['u'] cpu)).map (fun v => v * 1000)
  else if strIn "m" cpu then (pyFloat? (rstrip ['m'] cpu)).map (fun v => v * 1000000)
  else (pyFloat? cpu).map (fun v => v * 1000000000)

/-- Normalize a container memory quantity to kibibytes (lines 381-388). -/
def memToKi (memory : String) : Option ℚ :=
  if strIn "Ki" memory then pyFloat? (rstrip ['K', 'i'] memory)
  else if strIn "Mi" memory then (pyFloat? (rstrip ['M', 'i'] memory)).map (fun v => v * 1024)
  else if strIn "Gi" memory then (pyFloat? (rstrip ['G', 'i'] memory)).map (fun v => v * 1024 * 1024)
  else (pyFloat? memory).map (fun v => v / 1024)

structure ContainerUsage where
  cpu : String
  memory : String
deriving DecidableEq

/-- Sum of a pod containers CPU (nanocores) and memory (Ki); the
accumulators start as the Python int 0 and become floats on first addition
(lines 365-388). -/
def podTotals (containers : List ContainerUsage) : Option (PyNum × PyNum) :=
  containers.foldlM
    (fun acc c => do
      let dc ← cpuToNano c.cpu
      let dm ← memToKi c.memory
      pure (acc.1.addFloat dc, acc.2.addFloat dm))
    (PyNum.int 0, PyNum.int 0)

/-- The intermediate CPU display string (line 399 of the http variant):
f-string of the total if below one million nanocores, else milli form. -/
def cpuStr (cpu : PyNum) : String :=
  if cpu.toQ < 1000000 then pyNumStr cpu ++ "n"
  else fixed2 (cpu.toQ / 1000000) ++ "m"

/-- The intermediate memory display string (line 400). -/
def memStr (mem : PyNum) : String := fixed0 mem.toQ ++ "Ki"

/-! ### Cluster data model (the fields the checked tools read) -/

structure Waiting where
  reason : Option String
deriving DecidableEq

structure Terminated where
  reason : Option String
deriving DecidableEq

structure ContainerState where
  waiting : Option Waiting
  terminated : Option Terminated
deriving DecidableEq

structure ContainerStatus where
  name : String
  ready : Bool
  state : ContainerState
  restart_count : Nat
deriving DecidableEq

/-- Pod metadata; the source field namespace is a Lean keyword, named ns. -/
structure PodMeta where
  name : String
  ns : String
deriving DecidableEq

structure PodStatus where
  phase : String
  container_statuses : Option (List ContainerStatus)
deriving DecidableEq

structure Pod where
  meta : PodMeta
  status : PodStatus
deriving DecidableEq

structure NodeCondition where
  type : String
  status : String
deriving DecidableEq

structure Node where
  name : String
  conditions : List NodeCondition
deriving DecidableEq

/-- Python str() of an optional value interpolated in an f-string: None
renders as the literal text None. -/
def pyNoneStr : Option String → String
  | none => "None"
  | some s => s

/-- Python truthiness of an optional string (None and the empty string are
falsy), as tested by the statements of the form if namespace. -/
def pyTruthy : Option String → Bool
  | none => false
  | some s => !(s == "")

/-- Which pod-listing API a namespace-scoped tool invokes. -/
inductive PodListCall where
  | allNamespaces
  | namespaced (ns : String)
deriving DecidableEq

/-! ### check_pod_health
src/k8s_mcp_server_http.py lines 248-320 and
src/k8s_mcp_server_local.py lines 225-297: problem-pod classification. -/

/-- The phase test on line 281: phase in [Failed, Unknown] or phase == Pending. -/
def isProblemPhase (phase : String) : Bool :=
  (phase == "Failed" || phase == "Unknown") || phase == "Pending"

/-- The issue string derived for one container status (lines 285-290):
nothing when ready; else the waiting reason when a waiting state is present,
else the terminated reason when a terminated state is present, else nothing. -/
def containerIssue (c : ContainerStatus) : Option String :=
  if c.ready then none
  else
    match c.state.waiting with
    | some w => some (c.name ++ ": " ++ pyNoneStr w.reason)
    | none =>
      match c.state.terminated with
      | some t => some (c.name ++ ": Terminated - " ++ pyNoneStr t.reason)
      | none => none

def podIssues (cs : List ContainerStatus) : List String :=
  cs.filterMap containerIssue

structure ProblemPod where
  name : String
  ns : String
  phase : String
  issues : List String
deriving DecidableEq

/-- The problem_pods list built by the classification loop (lines 276-297);
container_statuses or [] maps an absent list to the empty list. -/
def problemPods (pods : List Pod) : List ProblemPod :=
  pods.filterMap fun p =>
    if isProblemPhase p.status.phase then
      some ⟨p.meta.name, p.meta.ns, p.status.phase,
            podIssues (p.status.container_statuses.getD [])⟩
    else none

/-- The pod-listing call chosen by check_pod_health (lines 250-254). -/
def check_pod_health_fetch (ns : Option String) : PodListCall :=
  if pyTruthy ns then .namespaced (ns.getD "") else .allNamespaces

/-- The report title chosen by check_pod_health (lines 258-261). -/
def check_pod_health_title (ns : Option String) : String :=
  if pyTruthy ns then "Pod Health Status (Namespace: " ++ ns.getD "" ++ "):\n"
  else "Pod Health Status (All Namespaces):\n"

/-! ### diagnose_cluster
src/k8s_mcp_server_http.py lines 414-492 and
src/k8s_mcp_server_local.py lines 391-469. -/

/-- Node condition violations (lines 427-432); not capped in the report. -/
def nodeIssues (nodes : List Node) : List String :=
  nodes.flatMap fun node =>
    node.conditions.filterMap fun c =>
      if c.type == "Ready" && c.status != "True" then
        some ("Node " ++ node.name ++ " is not Ready")
      else if (c.type == "MemoryPressure" || c.type == "DiskPressure" ||
               c.type == "PIDPressure") && c.status == "True" then
        some ("Node " ++ node.name ++ " has " ++ c.type)
      else none

/-- Failed pods (lines 438-440). -/
def failingPods (pods : List Pod) : List String :=
  pods.filterMap fun p =>
    if p.status.phase == "Failed" then some (p.meta.ns ++ "/" ++ p.meta.name)
    else none

/-- Pending pods (lines 441-442); the elif keeps Failed pods out first. -/
def pendingPods (pods : List Pod) : List String :=
  pods.filterMap fun p =>
    if p.status.phase == "Failed" then none
    else if p.status.phase == "Pending" then some (p.meta.ns ++ "/" ++ p.meta.name)
    else none

/-- Pods with a container restart_count above 5 (lines 445-453). -/
def highRestartPods (pods : List Pod) : List String :=
  pods.flatMap fun p =>
    match p.status.container_statuses with
    | none => []
    | some cs =>
      cs.filterMap fun c =>
        if 5 < c.restart_count then
          some (p.meta.ns ++ "/" ++ p.meta.name ++ " (container: " ++ c.name ++
                ", restarts: " ++ toString c.restart_count ++ ")")
        else none

/-- One capped report block (the pattern of lines 469-491): a count header,
the first 10 entries, and an overflow line when more than 10 exist.  The
trailing blank line after the first two blocks is added by the caller. -/
def cappedBlock (title : String) (items : List String) : String :=
  if items.isEmpty then ""
  else
    title ++ " (" ++ toString items.length ++ "):\n"
      ++ String.join ((items.take 10).map fun i => "  - " ++ i ++ "\n")
      ++ (if 10 < items.length then
            "  ... and " ++ toString (items.length - 10) ++ " more\n"
          else "")

/-- The full diagnostics report (lines 414-492).  Note the node-issues block
renders every entry, with no cap. -/
def diagnose_cluster (nodes : List Node) (pods : List Pod) : String :=
  let issues := nodeIssues nodes
  let failing := failingPods pods
  let pending := pendingPods pods
  let high := highRestartPods pods
  let header := "Cluster Diagnostics:\n" ++ strRepeat "═" 60 ++ "\n\n"
  if issues.isEmpty && failing.isEmpty && pending.isEmpty && high.isEmpty then
    header ++ "✓ No critical issues detected\n\nCluster appears healthy!\n"
  else
    header ++ "⚠ Issues Detected:\n" ++ strRepeat "─" 60 ++ "\n\n"
      ++ (if issues.isEmpty then ""
          else "Node Issues:\n" ++ String.join (issues.map fun i => "  - " ++ i ++ "\n") ++ "\n")
      ++ cappedBlock "Failed Pods" failing ++ (if failing.isEmpty then "" else "\n")
      ++ cappedBlock "Pending Pods" pending ++ (if pending.isEmpty then "" else "\n")
      ++ cappedBlock "Pods with High Restart Count" high

/-! ### get_resource_usage
src/k8s_mcp_server_http.py lines 323-411 and
src/k8s_mcp_server_local.py lines 300-388.  The cluster fetch outcome is
passed in: an ApiException from the metrics API, or the fetched node and
pod metric items. -/

structure NodeMetric where
  name : String
  cpu : String
  memory : String
deriving DecidableEq

structure PodMetric where
  name : String
  ns : String
  containers : List ContainerUsage
deriving DecidableEq

structure ApiException where
  status : Nat
  msg : String
deriving DecidableEq

structure PodWithUsage where
  name : String
  ns : String
  cpu : PyNum
  mem : PyNum
deriving DecidableEq

/-- Stable insertion step: a is placed after every existing element that
may precede it (le b a), so elements comparing equal keep their order. -/
def insertOrd {α : Type} (le : α → α → Bool) (a : α) : List α → List α
  | [] => [a]
  | b :: bs => if le b a then b :: insertOrd le a bs else a :: b :: bs

/-- Stable sort by a total preorder, processing elements left to right;
extensionally equal to the stable CPython list.sort for the same order. -/
def pySort {α : Type} (le : α → α → Bool) (l : List α) : List α :=
  l.foldl (fun acc a => insertOrd le a acc) []

/-- Python list.sort(key=cpu, reverse=True): a stable descending sort
(equal keys keep their original relative order). -/
def sortByCpuDesc (l : List PodWithUsage) : List PodWithUsage :=
  pySort (fun a b => decide (b.cpu.toQ ≤ a.cpu.toQ)) l

/-- The pod-metrics listing call chosen in _fetch (lines 332-340). -/
def pod_metrics_call (ns : Option String) : PodListCall :=
  if pyTruthy ns then .namespaced (ns.getD "") else .allNamespaces

/-- The report; none models a ValueError escaping (only ApiException is
caught by the source, and only the 404 case yields the sentinel text). -/
def get_resource_usage (ns : Option String)
    (fetch : Except ApiException (List NodeMetric × List PodMetric)) : Option String :=
  match fetch with
  | .error e =>
    if e.status == 404 then
      some ("Resource Usage:\n" ++ strRepeat "═" 60 ++ "\n\n" ++ "Metrics Server not available\n")
    else
      some ("Error getting metrics: " ++ e.msg)
  | .ok (node_metrics, pod_metrics) => do
    let nodeLines ← node_metrics.mapM fun n => do
      let u ← format_resource_usage n.cpu n.memory
      pure ("  " ++ n.name ++ ": " ++ u ++ "\n")
    let pods_with_usage ← pod_metrics.mapM fun p => do
      let tot ← podTotals p.containers
      pure (PodWithUsage.mk p.name p.ns tot.1 tot.2)
    let sorted := sortByCpuDesc pods_with_usage
    let podLines ← (sorted.take 10).mapM fun p => do
      let u ← format_resource_usage (cpuStr p.cpu) (memStr p.mem)
      pure ("  " ++ p.ns ++ "/" ++ p.name ++ ": " ++ u ++ "\n")
    pure ("Resource Usage:\n" ++ strRepeat "═" 60 ++ "\n\n"
      ++ "Nodes:\n" ++ strRepeat "─" 60 ++ "\n"
      ++ String.join nodeLines
      ++ (if pyTruthy ns then "\n\nPods (Namespace: " ++ ns.getD "" ++ "):\n"
          else "\n\nTop Pods by Resource Usage:\n")
      ++ strRepeat "─" 60 ++ "\n"
      ++ String.join podLines)

/-! ### check_networking, sidecar injection coverage
src/k8s_mcp_server_http.py lines 541-655. -/

structure SpecContainer where
  name : String
  image : Option String
deriving DecidableEq

/-- A pod as seen by the sidecar analysis: namespace and spec containers
(pod.spec.containers may be absent; the source maps it to []). -/
structure NetPod where
  ns : String
  containers : Option (List SpecContainer)
deriving DecidableEq

/-- A pod is injected when some spec container is named istio-proxy
(lines 631-639). -/
def podInjected (p : NetPod) : Bool :=
  (p.containers.getD []).any (fun c => c.name == "istio-proxy")

/-- ns_total entry for one namespace: every pod of the namespace counts. -/
def nsTotal (pods : List NetPod) (nsName : String) : Nat :=
  (pods.filter (fun p => p.ns == nsName)).length

/-- ns_injected entry: pods of the namespace with an istio-proxy container. -/
def nsInjected (pods : List NetPod) (nsName : String) : Nat :=
  (pods.filter (fun p => p.ns == nsName && podInjected p)).length

/-- The percentage on lines 648 and 652: integer floor division, with 0 for
an empty namespace. -/
def pctOf (injected total : Nat) : Nat :=
  if total != 0 then injected * 100 / total else 0

/-- One per-namespace coverage line (lines 650-654). -/
def nsCoverageLine (nsName : String) (injected total : Nat) : String :=
  let indicator := if injected == total then "✓" else if 0 < injected then "~" else "✗"
  "  " ++ indicator ++ " " ++ nsName ++ ": " ++ toString injected ++ "/" ++ toString total
    ++ " (" ++ toString (pctOf injected total) ++ "%)\n"

/-- Lexicographic order on code points (Python string comparison). -/
def charListLe : List Char → List Char → Bool
  | [], _ => true
  | _ :: _, [] => false
  | a :: as, b :: bs =>
    if a.toNat < b.toNat then true
    else if b.toNat < a.toNat then false
    else charListLe as bs

/-- Python sorted() on namespace names (code point order). -/
def sortStrings (l : List String) : List String :=
  pySort (fun a b => charListLe a.data b.data) l

/-- The Sidecar Injection Coverage section (lines 621-655). -/
def sidecarSection (all_pods : List NetPod) : String :=
  let nsKeys := sortStrings ((all_pods.map (fun p => p.ns)).dedup)
  let total_pods := all_pods.length
  let total_injected := (all_pods.filter podInjected).length
  "Sidecar Injection Coverage:\n" ++ strRepeat "─" 60 ++ "\n"
    ++ (if total_injected == 0 then "  ⚠ No istio-proxy sidecars detected in any pod\n"
        else
          "  Total: " ++ toString total_injected ++ "/" ++ toString total_pods
            ++ " pods have sidecar (" ++ toString (total_injected * 100 / total_pods) ++ "%)\n\n"
            ++ String.join (nsKeys.map fun nsName =>
                 nsCoverageLine nsName (nsInjected all_pods nsName) (nsTotal all_pods nsName)))
    ++ "\n"

/-- The listing calls made by the check_networking _fetch closure, in order:
all pods (lines 558-561), services and endpoints (lines 564-569), network
policies (lines 572-575), Istio custom resources (lines 586-595).  All four
branch on the truthiness of the namespace argument. -/
def check_networking_calls (ns : Option String) :
    PodListCall × PodListCall × PodListCall × PodListCall :=
  (if pyTruthy ns then .namespaced (ns.getD "") else .allNamespaces,
   if pyTruthy ns then .namespaced (ns.getD "") else .allNamespaces,
   if pyTruthy ns then .namespaced (ns.getD "") else .allNamespaces,
   if pyTruthy ns then .namespaced (ns.getD "") else .allNamespaces)

/-- The scope label of the networking report header (line 605). -/
def check_networking_scope (ns : Option String) : String :=
  if pyTruthy ns then "Namespace: " ++ ns.getD "" else "All Namespaces"

/-! ### Tool registry and dispatcher
src/k8s_mcp_server_http.py lines 150-178 (the local variant, lines 130-155,
differs only by lacking the check_networking tool).  Each report builder
returns a single text content; builders are abstracted as computations that
either produce the report text or raise (Except.error carries str(e)).  The
source wraps each builder result as one text content; the wrapping is done
once here, after dispatch, which is equivalent. -/

structure TextContent where
  type : String
  text : String
deriving DecidableEq

/-- The JSON arguments object; get returns the value or None. -/
structure Arguments where
  entries : List (String × String)
deriving DecidableEq

def Arguments.get (a : Arguments) (k : String) : Option String :=
  (a.entries.find? (fun e => e.1 == k)).map (fun e => e.2)

/-- The tool names registered by list_tools (lines 68-147). -/
def toolNames : List String :=
  ["get_cluster_info", "check_node_health", "check_pod_health", "get_resource_usage",
   "diagnose_cluster", "get_namespace_summary", "check_networking"]

structure Handlers where
  init : Except String Unit
  get_cluster_info : Except String String
  check_node_health : Except String String
  check_pod_health : Option String → Except String String
  get_resource_usage : Option String → Except String String
  diagnose_cluster : Except String String
  get_namespace_summary : Except String String
  check_networking : Option String → Except String String

/-- The body of the try block of call_tool (lines 154-175): initialize the
client, then dispatch on the tool name, with the unknown-tool fallback. -/
def dispatch_body (h : Handlers) (name : String) (arguments : Arguments) :
    Except String String := do
  h.init
  if name == "get_cluster_info" then h.get_cluster_info
  else if name == "check_node_health" then h.check_node_health
  else if name == "check_pod_health" then h.check_pod_health (arguments.get "namespace")
  else if name == "get_resource_usage" then h.get_resource_usage (arguments.get "namespace")
  else if name == "diagnose_cluster" then h.diagnose_cluster
  else if name == "get_namespace_summary" then h.get_namespace_summary
  else if name == "check_networking" then h.check_networking (arguments.get "namespace")
  else pure ("Unknown tool: " ++ name)

/-- call_tool (lines 150-178): a total function into text contents; the
except clause converts any exception into the Error text. -/
def call_tool (h : Handlers) (name : String) (arguments : Arguments) : List TextContent :=
  match dispatch_body h name arguments with
  | .ok r => [TextContent.mk "text" r]
  | .error e => [TextContent.mk "text" ("Error: " ++ e)]

/-! ## Claim theorems -/

/-- C7: the quantity normalizer satisfies the literal parsing equalities:
CPU 500m is 0.5 cores, 250000000n is 0.25 cores, a bare 2 is 2.0 cores;
memory 1048576Ki is 1.0 GB, 512Mi is 0.5 GB, 2Gi is 2.0 GB (all six values
are exactly representable in binary floating point, so the exact rational
model agrees with CPython). -/
theorem quantity_literal_values :
    parseCPU "500m" = some (1 / 2) ∧
    parseCPU "250000000n" = some (1 / 4) ∧
    parseCPU "2" = some 2 ∧
    parseMemory "1048576Ki" = some 1 ∧
    parseMemory "512Mi" = some (1 / 2) ∧
    parseMemory "2Gi" = some 2 := by
  decide

/-- C9: when the metrics API lookup fails with status 404, the report is
exactly the header plus the Metrics Server not available line, with no node
lines and no pod ranking, and the tool still returns text (some, not none). -/
theorem metrics_unavailable_message (ns : Option String) (msg : String) :
    get_resource_usage ns (Except.error ⟨404, msg⟩) =
      some ("Resource Usage:\n" ++ strRepeat "═" 60 ++ "\n\n"
            ++ "Metrics Server not available\n") := by
  rfl

/-- C10: for check_pod_health, get_resource_usage and check_networking, an
empty-string namespace argument is falsy in Python, so every
namespace-dependent decision (which listing API is called, and the report
headers) is identical to omitting the parameter, and selects the
all-namespaces listing. -/
theorem empty_namespace_all_namespaces :
    pyTruthy (some "") = pyTruthy none ∧
    check_pod_health_fetch (some "") = check_pod_health_fetch none ∧
    check_pod_health_fetch none = PodListCall.allNamespaces ∧
    check_pod_health_title (some "") = check_pod_health_title none ∧
    pod_metrics_call (some "") = pod_metrics_call none ∧
    pod_metrics_call none = PodListCall.allNamespaces ∧
    (∀ fetch, get_resource_usage (some "") fetch = get_resource_usage none fetch) ∧
    check_networking_calls (some "") = check_networking_calls none ∧
    check_networking_calls none =
      (PodListCall.allNamespaces, PodListCall.allNamespaces,
       PodListCall.allNamespaces, PodListCall.allNamespaces) ∧
    check_networking_scope (some "") = check_networking_scope none := by
  refine ⟨rfl, rfl, rfl, rfl, rfl, rfl, ?_, rfl, rfl, rfl⟩
  intro fetch
  cases fetch with
  | error e => rfl
  | ok d => rfl

/-- C1 counterexample: the claim says a pod whose container CPUs sum to
999999 nanocores yields the display string 999999n with no decimal point;
the source sums Python floats, and the f-string of the float total renders
999999.0n. -/
theorem cpu_display_counterexample :
    (podTotals [⟨"999999n", "1024Ki"⟩]).map (fun t => cpuStr t.1) = some "999999.0n" ∧
    "999999.0n" ≠ "999999n" := by
  decide

/-- C2 counterexample: the claim says parsing never raises, treating any
unrecognized suffix as a bare numeric; but the CPU string 5x has no
recognized suffix marker and float raises ValueError on it (none in the
model), and likewise for the memory string 7Ti. -/
theorem quantity_parse_counterexample :
    strIn "n" "5x" = false ∧ strIn "u" "5x" = false ∧ strIn "m" "5x" = false ∧
    parseCPU "5x" = none ∧ cpuToNano "5x" = none ∧
    strIn "Ki" "7Ti" = false ∧ strIn "Mi" "7Ti" = false ∧ strIn "Gi" "7Ti" = false ∧
    parseMemory "7Ti" = none ∧ memToKi "7Ti" = none := by
  decide

/-! Helper lemmas (shared; not claim theorems). -/

theorem fracKAux_den_one (fuel : Nat) (q : ℚ) (h : q.den = 1) :
    fracKAux (fuel + 1) q = 0 := by
  simp [fracKAux, h]

theorem fracK_den_one (q : ℚ) (h : q.den = 1) : fracK q = 0 := by
  show fracKAux 1200 q = 0
  rw [show (1200 : Nat) = 1199 + 1 from rfl]
  exact fracKAux_den_one 1199 q h

theorem pyFloatStr_intCast (n : ℤ) (h : 0 ≤ n) :
    pyFloatStr (n : ℚ) = toString n ++ ".0" := by
  have hq : (0 : ℚ) ≤ (n : ℚ) := by exact_mod_cast h
  have habs : |(n : ℚ)| = (n : ℚ) := abs_of_nonneg hq
  have hneg : ¬((n : ℚ) < 0) := not_lt.mpr hq
  have hk : fracK |(n : ℚ)| = 0 := by
    rw [habs]; exact fracK_den_one _ (Rat.den_intCast n)
  simp only [pyFloatStr, hk, habs, if_neg hneg, Rat.num_intCast, beq_self_eq_true, if_pos]
  rfl

theorem list_filterMap_guard {α β : Type} (q : α → Bool) (f : α → β) (l : List α) :
    l.filterMap (fun a => if q a then some (f a) else none) = (l.filter q).map f := by
  induction l with
  | nil => rfl
  | cons a l ih => by_cases h : q a <;> simp [List.filter_cons, h, ih]

theorem isProblemPhase_eq (s : String) :
    isProblemPhase s
      = decide (s = "Failed" ∨ s = "Unknown" ∨ s = "Pending") := by
  by_cases h1 : s = "Failed" <;> by_cases h2 : s = "Unknown" <;>
    by_cases h3 : s = "Pending" <;> simp [isProblemPhase, h1, h2, h3]

/-- C1 amended: the totals the source sums are Python floats, so a total of
n nanocores strictly below one million is displayed as the f-string of the
float, toString n followed by .0 and the unit n (999999 nanocores displays
as 999999.0n, not 999999n); totals of one million or more (the boundary
included) take the milli form with two decimals. -/
theorem cpu_display_amended (n : ℤ) (h0 : 0 ≤ n) (h1 : (n : ℚ) < 1000000) :
    cpuStr (PyNum.float (n : ℚ)) = toString n ++ ".0" ++ "n" ∧
    cpuStr (PyNum.float 1000000) = "1.00m" ∧
    cpuStr (PyNum.float 1000001) = "1.00m" := by
  refine ⟨?_, by decide, by decide⟩
  show (if ((n : ℚ) < 1000000) then pyNumStr (PyNum.float (n : ℚ)) ++ "n" else _) = _
  rw [if_pos h1]
  show pyFloatStr (n : ℚ) ++ "n" = _
  rw [pyFloatStr_intCast n h0]

/-- C1 amended witness at the concrete total of 999999 nanocores. -/
theorem cpu_display_amended_witness :
    (0 : ℤ) ≤ 999999 ∧ ((999999 : ℤ) : ℚ) < 1000000 ∧
    cpuStr (PyNum.float ((999999 : ℤ) : ℚ)) = toString (999999 : ℤ) ++ ".0" ++ "n" :=
  ⟨by decide, by norm_num,
   (cpu_display_amended 999999 (by decide) (by norm_num)).1⟩

/-- C2 amended: a quantity string containing none of the recognized suffix
markers falls through to the bare-numeric branch, whose float() call
succeeds exactly when the string is a valid numeric literal and raises
ValueError otherwise; so parsing is total only over numeric bodies, not
over all strings. -/
theorem quantity_parse_fallthrough (s t : String)
    (h1 : strIn "n" s = false) (h2 : strIn "u" s = false) (h3 : strIn "m" s = false)
    (h4 : strIn "Ki" t = false) (h5 : strIn "Mi" t = false) (h6 : strIn "Gi" t = false) :
    parseCPU s = pyFloat? s ∧
    cpuToNano s = (pyFloat? s).map (fun v => v * 1000000000) ∧
    parseMemory t = (pyFloat? t).map (fun v => v / 1024 ^ 3) ∧
    memToKi t = (pyFloat? t).map (fun v => v / 1024) := by
  refine ⟨?_, ?_, ?_, ?_⟩ <;>
    simp [parseCPU, cpuToNano, parseMemory, memToKi, h1, h2, h3, h4, h5, h6]

/-- C2 amended witness at suffix-free numeric strings. -/
theorem quantity_parse_fallthrough_witness :
    parseCPU "2" = pyFloat? "2" ∧
    cpuToNano "2" = (pyFloat? "2").map (fun v => v * 1000000000) ∧
    parseMemory "512" = (pyFloat? "512").map (fun v => v / 1024 ^ 3) ∧
    memToKi "512" = (pyFloat? "512").map (fun v => v / 1024) :=
  quantity_parse_fallthrough "2" "512" rfl rfl rfl rfl rfl rfl

/-- C3 counterexample: the claim says every non-empty issue collection is
capped at 10 displayed entries with an overflow suffix; but with 11 node
condition violations the report displays all 11 (the 11th line is present)
and contains no overflow suffix anywhere. -/
theorem diagnostics_cap_counterexample :
    (nodeIssues ((List.range 11).map fun i => ⟨"n" ++ toString i, [⟨"Ready", "False"⟩]⟩)).length
      = 11 ∧
    strIn "- Node n10 is not Ready"
      (diagnose_cluster ((List.range 11).map fun i => ⟨"n" ++ toString i, [⟨"Ready", "False"⟩]⟩) [])
      = true ∧
    strIn "... and"
      (diagnose_cluster ((List.range 11).map fun i => ⟨"n" ++ toString i, [⟨"Ready", "False"⟩]⟩) [])
      = false := by
  decide

/-- C3 amended: the healthy message appears exactly when all four
collections are empty; the three pod collections (failed, pending, high
restart count) are rendered by the capped block, which shows the first 10
entries and an overflow line exactly when more than 10 exist; the node
condition violations are rendered in full, with no cap and no overflow
line. -/
theorem diagnostics_cap_amended (nodes : List Node) (pods : List Pod)
    (title : String) (items : List String) :
    (nodeIssues nodes = [] → failingPods pods = [] → pendingPods pods = [] →
      highRestartPods pods = [] →
      diagnose_cluster nodes pods =
        "Cluster Diagnostics:\n" ++ strRepeat "═" 60 ++ "\n\n"
          ++ "✓ No critical issues detected\n\nCluster appears healthy!\n") ∧
    (10 < items.length →
      cappedBlock title items =
        title ++ " (" ++ toString items.length ++ "):\n"
          ++ String.join ((items.take 10).map fun i => "  - " ++ i ++ "\n")
          ++ "  ... and " ++ toString (items.length - 10) ++ " more\n") ∧
    (items ≠ [] → items.length ≤ 10 →
      cappedBlock title items =
        title ++ " (" ++ toString items.length ++ "):\n"
          ++ String.join (items.map fun i => "  - " ++ i ++ "\n")) ∧
    (¬(nodeIssues nodes = [] ∧ failingPods pods = [] ∧ pendingPods pods = [] ∧
        highRestartPods pods = []) →
      diagnose_cluster nodes pods =
        "Cluster Diagnostics:\n" ++ strRepeat "═" 60 ++ "\n\n"
          ++ "⚠ Issues Detected:\n" ++ strRepeat "─" 60 ++ "\n\n"
          ++ (if nodeIssues nodes = [] then ""
              else "Node Issues:\n"
                ++ String.join ((nodeIssues nodes).map fun i => "  - " ++ i ++ "\n") ++ "\n")
          ++ cappedBlock "Failed Pods" (failingPods pods)
          ++ (if failingPods pods = [] then "" else "\n")
          ++ cappedBlock "Pending Pods" (pendingPods pods)
          ++ (if pendingPods pods = [] then "" else "\n")
          ++ cappedBlock "Pods with High Restart Count" (highRestartPods pods)) := by
  refine ⟨?_, ?_, ?_, ?_⟩
  · intro e1 e2 e3 e4
    simp [diagnose_cluster, e1, e2, e3, e4]
  · intro hgt
    have hne : ¬items.isEmpty := by
      cases items with
      | nil => simp at hgt
      | cons a l => simp
    simp only [cappedBlock, hne, Bool.false_eq_true, if_false, if_pos hgt,
      String.append_assoc]
  · intro hne hle
    have hb : ¬items.isEmpty := by simp [List.isEmpty_iff, hne]
    have hnot : ¬(10 < items.length) := not_lt.mpr hle
    simp only [cappedBlock, hb, Bool.false_eq_true, if_false, if_neg hnot,
      List.take_of_length_le hle, String.append_empty]
  · intro hne
    have hcond : ¬((nodeIssues nodes).isEmpty && (failingPods pods).isEmpty
        && (pendingPods pods).isEmpty && (highRestartPods pods).isEmpty) = true := by
      simp only [Bool.and_eq_true, List.isEmpty_iff]
      intro hc
      exact hne ⟨hc.1.1.1, hc.1.1.2, hc.1.2, hc.2⟩
    simp only [diagnose_cluster, if_neg hcond, List.isEmpty_iff]

/-- C3 amended witness: with exactly 15 failed pods the block shows the
first 10 entries followed by the overflow line and 5 more. -/
theorem diagnostics_cap_witness :
    10 < (failingPods ((List.range 15).map fun i =>
        ⟨⟨"p" ++ toString i, "ns"⟩, ⟨"Failed", none⟩⟩)).length ∧
    cappedBlock "Failed Pods" (failingPods ((List.range 15).map fun i =>
        ⟨⟨"p" ++ toString i, "ns"⟩, ⟨"Failed", none⟩⟩)) =
      "Failed Pods (15):\n  - ns/p0\n  - ns/p1\n  - ns/p2\n  - ns/p3\n  - ns/p4\n"
        ++ "  - ns/p5\n  - ns/p6\n  - ns/p7\n  - ns/p8\n  - ns/p9\n  ... and 5 more\n" :=
  ⟨by decide,
   ((diagnostics_cap_amended [] ((List.range 15).map fun i =>
        ⟨⟨"p" ++ toString i, "ns"⟩, ⟨"Failed", none⟩⟩) "Failed Pods"
      (failingPods ((List.range 15).map fun i =>
        ⟨⟨"p" ++ toString i, "ns"⟩, ⟨"Failed", none⟩⟩))).2.1 (by decide)).trans (by decide)⟩

/-- C4: a pod enters the problem list exactly when its phase is Failed,
Unknown or Pending; a container with ready true contributes no issue; for a
ready-false container the waiting reason is reported whenever a waiting
state is present (even when a terminated state is also present), and the
terminated reason is reported only when no waiting state exists. -/
theorem pod_health_classification (pods : List Pod) (c : ContainerStatus)
    (w : Waiting) (t : Terminated) :
    ((problemPods pods).map (fun pp => (pp.ns, pp.name, pp.phase)) =
      (pods.filter fun p =>
          decide (p.status.phase = "Failed" ∨ p.status.phase = "Unknown" ∨
                  p.status.phase = "Pending")).map
        (fun p => (p.meta.ns, p.meta.name, p.status.phase))) ∧
    (c.ready = true → containerIssue c = none) ∧
    (c.ready = false → c.state.waiting = some w →
      containerIssue c = some (c.name ++ ": " ++ pyNoneStr w.reason)) ∧
    (c.ready = false → c.state.waiting = none → c.state.terminated = some t →
      containerIssue c = some (c.name ++ ": Terminated - " ++ pyNoneStr t.reason)) := by
  refine ⟨?_, ?_, ?_, ?_⟩
  · rw [problemPods, list_filterMap_guard, List.map_map,
      List.filter_congr (fun p _ => isProblemPhase_eq p.status.phase)]
    rfl
  · intro h; simp [containerIssue, h]
  · intro h hw; simp [containerIssue, h, hw]
  · intro h hw ht; simp [containerIssue, h, hw, ht]

/-- C4 witness: a ready-false container with waiting reason
ImagePullBackOff and a terminated state present reports the waiting reason. -/
theorem pod_health_classification_witness :
    containerIssue ⟨"app", false, ⟨some ⟨some "ImagePullBackOff"⟩, some ⟨some "Error"⟩⟩, 0⟩
      = some "app: ImagePullBackOff" :=
  ((pod_health_classification []
      ⟨"app", false, ⟨some ⟨some "ImagePullBackOff"⟩, some ⟨some "Error"⟩⟩, 0⟩
      ⟨some "ImagePullBackOff"⟩ ⟨some "Error"⟩).2.2.1 rfl rfl).trans (by decide)

/-- C5: call_tool always returns a single text content (it is a total
function, never an error at the protocol level), and whenever the dispatch
body raises an exception with message e, the returned text is Error: e. -/
theorem call_tool_error_boundary (h : Handlers) (name : String) (args : Arguments) :
    (∃ txt, call_tool h name args = [TextContent.mk "text" txt]) ∧
    (∀ e, dispatch_body h name args = Except.error e →
      call_tool h name args = [TextContent.mk "text" ("Error: " ++ e)]) := by
  constructor
  · cases hd : dispatch_body h name args with
    | ok r => exact ⟨r, by simp [call_tool, hd]⟩
    | error e => exact ⟨"Error: " ++ e, by simp [call_tool, hd]⟩
  · intro e he
    simp [call_tool, he]

/-- C5 witness: a handler environment whose client initialization raises
boom yields the Error text for an otherwise valid tool call. -/
theorem call_tool_error_boundary_witness :
    call_tool
      ⟨Except.error "boom", Except.ok "", Except.ok "", fun _ => Except.ok "",
       fun _ => Except.ok "", Except.ok "", Except.ok "", fun _ => Except.ok ""⟩
      "get_cluster_info" ⟨[]⟩ = [TextContent.mk "text" "Error: boom"] :=
  ((call_tool_error_boundary
      ⟨Except.error "boom", Except.ok "", Except.ok "", fun _ => Except.ok "",
       fun _ => Except.ok "", Except.ok "", Except.ok "", fun _ => Except.ok ""⟩
      "get_cluster_info" ⟨[]⟩).2 "boom" rfl).trans (by decide)

/-- C6: when client initialization succeeds and the tool name is not in the
registry, call_tool returns the single text content Unknown tool: name (a
successful result, not a protocol error). -/
theorem call_tool_unknown_tool (h : Handlers) (name : String) (args : Arguments)
    (hinit : h.init = Except.ok ()) (hname : name ∉ toolNames) :
    call_tool h name args = [TextContent.mk "text" ("Unknown tool: " ++ name)] := by
  simp only [toolNames, List.mem_cons, List.not_mem_nil, or_false, not_or] at hname
  obtain ⟨n1, n2, n3, n4, n5, n6, n7⟩ := hname
  simp [call_tool, dispatch_body, hinit, n1, n2, n3, n4, n5, n6, n7]

/-- C6 witness at the concrete unknown name nonexistent_tool. -/
theorem call_tool_unknown_tool_witness :
    call_tool
      ⟨Except.ok (), Except.ok "", Except.ok "", fun _ => Except.ok "",
       fun _ => Except.ok "", Except.ok "", Except.ok "", fun _ => Except.ok ""⟩
      "nonexistent_tool" ⟨[]⟩
      = [TextContent.mk "text" "Unknown tool: nonexistent_tool"] :=
  (call_tool_unknown_tool
      ⟨Except.ok (), Except.ok "", Except.ok "", fun _ => Except.ok "",
       fun _ => Except.ok "", Except.ok "", Except.ok "", fun _ => Except.ok ""⟩
      "nonexistent_tool" ⟨[]⟩ rfl (by decide)).trans (by decide)

/-- C8: a pod counts as injected exactly when one of its spec containers is
named istio-proxy; the per-namespace injected count is the count of
injected pods of the namespace; and the coverage line renders the
percentage with natural-number floor division (never a rounded float). -/
theorem sidecar_coverage_floor (p : NetPod) (pods : List NetPod) (nsName : String)
    (injected total : Nat) (htot : total ≠ 0) :
    (podInjected p = true ↔ ∃ c ∈ p.containers.getD [], c.name = "istio-proxy") ∧
    nsInjected pods nsName =
      ((pods.filter fun q => q.ns == nsName).filter podInjected).length ∧
    nsCoverageLine nsName injected total =
      "  " ++ (if injected == total then "✓" else if 0 < injected then "~" else "✗")
        ++ " " ++ nsName ++ ": " ++ toString injected ++ "/" ++ toString total
        ++ " (" ++ toString (injected * 100 / total) ++ "%)\n" := by
  refine ⟨?_, ?_, ?_⟩
  · simp [podInjected, List.any_eq_true]
  · rw [nsInjected, List.filter_filter]
    exact congrArg List.length (List.filter_congr (fun a _ => Bool.and_comm _ _))
  · simp [nsCoverageLine, pctOf, htot]

/-- C8 witness: 3 injected pods of 4 in one namespace render 3/4 (75%),
both in the coverage line and in the full sidecar section. -/
theorem sidecar_coverage_floor_witness :
    nsCoverageLine "app" 3 4 = "  ~ app: 3/4 (75%)\n" ∧
    strIn "3/4 (75%)" (sidecarSection
      [⟨"app", some [⟨"istio-proxy", some "proxyv2:1.20"⟩]⟩,
       ⟨"app", some [⟨"istio-proxy", none⟩]⟩,
       ⟨"app", some [⟨"istio-proxy", none⟩]⟩,
       ⟨"app", some [⟨"main", none⟩]⟩]) = true :=
  ⟨((sidecar_coverage_floor ⟨"app", none⟩ [] "app" 3 4 (by decide)).2.2).trans (by decide),
   by decide⟩

end K8sMCP
